import Mathlib

/-!
Shallow embedding of the Drones3D backend game server
(src/backend/server/gamestate.rs and src/backend/server/main.rs).

Modelling conventions:
* 32-bit floats (`f32`) are modelled as exact rationals (`ℚ`).  All inputs
  used in concrete witnesses and counterexamples are small integers or
  dyadic rationals on which `f32` arithmetic is exact, so evaluations of the
  model at those inputs agree bit-for-bit with the Rust code.
* `f32::sqrt` is modelled by `Rat.sqrt`, which is exact on perfect squares
  (all square roots taken in concrete theorems below are of perfect
  squares, where IEEE-754 correctly-rounded `sqrt` is also exact).  The
  case of a negative radicand, where the Rust code produces `NaN` and every
  subsequent comparison is false, is modelled by an explicit branch
  returning `false`.
* Where IEEE `NaN` behaviour itself is the subject of a claim
  (`Controls` validation), `f32` is instead modelled by the inductive type
  `F32` with an explicit `nan` constructor.
* `HashMap<u64, T>` is modelled as a list of entries; the list order stands
  for the map's (arbitrary) iteration order, insertion is modelled by
  appending, and deletion of the out-of-area entries by `List.filter`
  (the map's keys are exactly the stored guids, which the server keeps
  unique, so removing by guid removes exactly the moved-out entries).
* `ThreadRng` is modelled as two read-only streams (`Rng`), one of rational
  draws and one of natural draws, together with a cursor that the tick
  threads through the draw sites in program order.  The range constraints
  of `gen_range` are not imposed on the streams; no claim below depends on
  them.
-/

/-- GAME_AREA_SIZE: half the side length of the cubic game area. -/
def GAME_AREA_SIZE : ℚ := 20

/-- OBSTACLE_AREA_SIZE: area outside of which obstacles are deleted. -/
def OBSTACLE_AREA_SIZE : ℚ := GAME_AREA_SIZE * (3/2)

/-- PLAYER_RADIUS from gamestate.rs. -/
def PLAYER_RADIUS : ℚ := 1

/-- MAX_PLAYER_RESPAWN_TIMER from gamestate.rs. -/
def MAX_PLAYER_RESPAWN_TIMER : ℕ := 80

/-- PLAYER_THRUST_FACTOR from gamestate.rs (0.1). -/
def PLAYER_THRUST_FACTOR : ℚ := 1/10

/-- PLAYER_TURN_SPEED from gamestate.rs (0.1 radians per game tick). -/
def PLAYER_TURN_SPEED : ℚ := 1/10

/-- AMMO_MAX from gamestate.rs. -/
def AMMO_MAX : ℕ := 3

/-- RELOAD_TIMER_MAX from gamestate.rs. -/
def RELOAD_TIMER_MAX : ℕ := 60

/-- FIRE_RATE_TIMER_MAX from gamestate.rs. -/
def FIRE_RATE_TIMER_MAX : ℕ := 10

/-- MAX_OBSTACLE_SPAWN_TIMER from gamestate.rs. -/
def MAX_OBSTACLE_SPAWN_TIMER : ℕ := 80

/-- BULLET_SPEED from gamestate.rs (0.25). -/
def BULLET_SPEED : ℚ := 1/4

/-- A 3-vector of `f32`, modelled with exact rational components
(`[f32;3]` in gamestate.rs). -/
structure Vec3 where
  x : ℚ
  y : ℚ
  z : ℚ
deriving DecidableEq

/-- A single `f32` value for the wire layer, with IEEE `NaN` explicit.
`val q` is an ordinary (finite) value, modelled exactly. -/
inductive F32 where
  | nan : F32
  | val : ℚ → F32
deriving DecidableEq

/-- Model of Rust `f32::clamp(self, lo, hi)`: returns `lo` if `self < lo`,
`hi` if `self > hi`, otherwise `self`.  Since every comparison with `NaN`
is false, `NaN` is returned unchanged. -/
def fclamp (x : F32) (lo hi : ℚ) : F32 :=
  match x with
  | F32.nan => F32.nan
  | F32.val q => F32.val (if q < lo then lo else if hi < q then hi else q)

/-- One avatar's raw per-tick input as deserialized from the wire
(struct ControlsRaw in gamestate.rs); numeric fields are `f32`. -/
structure ControlsRaw where
  rot_y : F32
  forward_back : F32
  up_down : F32
  shoot : Bool

/-- One competitor's raw message: a control block per owned avatar
(struct InputRaw in gamestate.rs). -/
structure InputRaw where
  controls_1 : ControlsRaw
  controls_2 : ControlsRaw

/-- Validated controls (struct Controls in gamestate.rs), wire layer. -/
structure Controls where
  rot_y : F32
  forward_back : F32
  up_down : F32
  shoot : Bool

/-- Controls::validate_raw_controls: clamps each numeric field of both
control blocks to `[-1, 1]` and copies the `shoot` flag.  The source
returns `[Controls; 2]`, modelled as a pair. -/
def validate_raw_controls (raw : InputRaw) : Controls × Controls :=
  (⟨fclamp raw.controls_1.rot_y (-1) 1,
    fclamp raw.controls_1.forward_back (-1) 1,
    fclamp raw.controls_1.up_down (-1) 1,
    raw.controls_1.shoot⟩,
   ⟨fclamp raw.controls_2.rot_y (-1) 1,
    fclamp raw.controls_2.forward_back (-1) 1,
    fclamp raw.controls_2.up_down (-1) 1,
    raw.controls_2.shoot⟩)

/-- Controls::empty: the neutral input substituted on parse failure. -/
def Controls.empty : Controls :=
  ⟨F32.val 0, F32.val 0, F32.val 0, false⟩

/-- Team (enum Team in gamestate.rs). -/
inductive Team where
  | A : Team
  | B : Team
deriving DecidableEq

/-- Simulation-layer controls: the same data as `Controls` but with the
numeric fields as plain rationals.  This is the form consumed by the tick
model, which (like all the spatial arithmetic here) models non-`NaN` `f32`
values exactly; `NaN` propagation through the simulation arithmetic is
outside this model. -/
structure ControlsQ where
  rot_y : ℚ
  forward_back : ℚ
  up_down : ℚ
  shoot : Bool
deriving DecidableEq

/-- Rational clamp with the same branch structure as `f32::clamp` on
ordinary values. -/
def qclamp (q lo hi : ℚ) : ℚ :=
  if q < lo then lo else if hi < q then hi else q

/-- Raw control block at the simulation layer (non-`NaN` values). -/
structure ControlsRawQ where
  rot_y : ℚ
  forward_back : ℚ
  up_down : ℚ
  shoot : Bool
deriving DecidableEq

/-- Raw competitor message at the simulation layer. -/
structure InputRawQ where
  controls_1 : ControlsRawQ
  controls_2 : ControlsRawQ
deriving DecidableEq

/-- Controls::validate_raw_controls at the simulation layer. -/
def validateRawQ (raw : InputRawQ) : ControlsQ × ControlsQ :=
  (⟨qclamp raw.controls_1.rot_y (-1) 1,
    qclamp raw.controls_1.forward_back (-1) 1,
    qclamp raw.controls_1.up_down (-1) 1,
    raw.controls_1.shoot⟩,
   ⟨qclamp raw.controls_2.rot_y (-1) 1,
    qclamp raw.controls_2.forward_back (-1) 1,
    qclamp raw.controls_2.up_down (-1) 1,
    raw.controls_2.shoot⟩)

/-- Neutral simulation-layer controls (Controls::empty). -/
def ControlsQ.empty : ControlsQ := ⟨0, 0, 0, false⟩

/-- The control-resolution block at the top of compute_next_tick
(gamestate.rs lines 289-313): `serde_json::from_str` on the input line is
modelled by its result, an `Option InputRawQ` (`none` is a parse error);
a successful parse is validated, a failed parse is replaced by a pair of
neutral controls. -/
def resolveInput (r : Option InputRawQ) : ControlsQ × ControlsQ :=
  match r with
  | some raw => validateRawQ raw
  | none => (ControlsQ.empty, ControlsQ.empty)

/-- Player (struct Player in gamestate.rs). -/
structure Player where
  team : Team
  position : Vec3
  velocity : Vec3
  rot_y : ℚ
  ammo : ℕ
  reload_timer : ℕ
  fire_rate_timer : ℕ
  is_dead : Bool
  respawn_timer : ℕ
deriving DecidableEq

/-- Obstacle (struct Obstacle in gamestate.rs). -/
structure Obstacle where
  guid : ℕ
  position : Vec3
  radius : ℚ
  velocity : Vec3
deriving DecidableEq

/-- Bullet (struct Bullet in gamestate.rs): a line segment between its
current and previous position; `velocity` is the horizontal `[f32;2]`. -/
structure Bullet where
  team : Team
  guid : ℕ
  position : Vec3
  prev_position : Vec3
  velocity : ℚ × ℚ
deriving DecidableEq

/-- The `HashMap<Team, i32>` of scores, modelled by one signed integer per
team (both keys are always present in the source map). -/
structure Scores where
  a : ℤ
  b : ℤ
deriving DecidableEq

/-- Score lookup for a team. -/
def Scores.get (s : Scores) : Team → ℤ
  | Team.A => s.a
  | Team.B => s.b

/-- Model of `*self.scores.get_mut(&t).unwrap() += n`. -/
def Scores.add (s : Scores) (t : Team) (n : ℤ) : Scores :=
  match t with
  | Team.A => { s with a := s.a + n }
  | Team.B => { s with b := s.b + n }

/-- Gamestate (struct Gamestate in gamestate.rs), with the two entity maps
as entry lists. -/
structure Gamestate where
  ticks_progressed : ℕ
  max_game_ticks : ℕ
  obstacles : List Obstacle
  obstacle_counter : ℕ
  obstacle_spawn_timer : ℕ
  bullets : List Bullet
  bullet_counter : ℕ
  player_a1 : Player
  player_a2 : Player
  player_b1 : Player
  player_b2 : Player
  scores : Scores
deriving DecidableEq

/-- Names for the four fixed player slots of the Gamestate. -/
inductive PId where
  | a1 : PId
  | a2 : PId
  | b1 : PId
  | b2 : PId
deriving DecidableEq

/-- Projection of a player slot out of a Gamestate. -/
def Gamestate.getP (st : Gamestate) : PId → Player
  | PId.a1 => st.player_a1
  | PId.a2 => st.player_a2
  | PId.b1 => st.player_b1
  | PId.b2 => st.player_b2

/-- inside_obstacle_area (gamestate.rs lines 89-98): axis-aligned bound
used for despawning obstacles and bullets. -/
def inside_obstacle_area (p : Vec3) : Bool :=
  decide (-OBSTACLE_AREA_SIZE ≤ p.x ∧ p.x ≤ OBSTACLE_AREA_SIZE ∧
          -OBSTACLE_AREA_SIZE ≤ p.y ∧ p.y ≤ OBSTACLE_AREA_SIZE ∧
          -OBSTACLE_AREA_SIZE ≤ p.z ∧ p.z ≤ OBSTACLE_AREA_SIZE)

/-- inside_game_area (gamestate.rs lines 100-110): radius-inflated
cube-face test; true exactly when the whole sphere of the given radius
around `p` lies inside the game-area cube. -/
def inside_game_area (p : Vec3) (radius : ℚ) : Bool :=
  decide (-GAME_AREA_SIZE ≤ p.x - radius ∧ p.x + radius ≤ GAME_AREA_SIZE ∧
          -GAME_AREA_SIZE ≤ p.y - radius ∧ p.y + radius ≤ GAME_AREA_SIZE ∧
          -GAME_AREA_SIZE ≤ p.z - radius ∧ p.z + radius ≤ GAME_AREA_SIZE)

/-- intersect_spheres (gamestate.rs lines 67-80).  The source compares the
Euclidean distance of the centers against `r1 + r2`; with nonnegative
radii (all radii in the program are positive) this is equivalent to the
squared comparison used here, which avoids a square root in the model. -/
def intersect_spheres (c1 : Vec3) (r1 : ℚ) (c2 : Vec3) (r2 : ℚ) : Bool :=
  decide ((c2.x - c1.x) * (c2.x - c1.x) +
          (c2.y - c1.y) * (c2.y - c1.y) +
          (c2.z - c1.z) * (c2.z - c1.z) < (r1 + r2) * (r1 + r2))

/-- The value `a` computed at gamestate.rs lines 51-53 (with
`r2 = radius.powf(2.0)` from line 50): the constant coefficient of the
quadratic `|v1 + t*(v2 - v1) - center|^2 - radius^2` in `t`. -/
def segA (center : Vec3) (radius : ℚ) (v1 : Vec3) : ℚ :=
  (v1.x - center.x) ^ 2 + (v1.y - center.y) ^ 2 + (v1.z - center.z) ^ 2 - radius ^ 2

/-- The value `c` computed at gamestate.rs lines 55-57: the quadratic
coefficient of the same quadratic. -/
def segC (v1 v2 : Vec3) : ℚ :=
  (v1.x - v2.x) ^ 2 + (v1.y - v2.y) ^ 2 + (v1.z - v2.z) ^ 2

/-- The value `b` computed at gamestate.rs lines 58-60: the linear
coefficient of the same quadratic. -/
def segB (center : Vec3) (radius : ℚ) (v1 v2 : Vec3) : ℚ :=
  (v2.x - center.x) ^ 2 + (v2.y - center.y) ^ 2 + (v2.z - center.z) ^ 2
    - segA center radius v1 - segC v1 v2 - radius ^ 2

/-- The radicand `b2 - 4.0*a*c` of gamestate.rs lines 62-63. -/
def segDisc (center : Vec3) (radius : ℚ) (v1 v2 : Vec3) : ℚ :=
  segB center radius v1 v2 ^ 2 - 4 * segA center radius v1 * segC v1 v2

/-- intersect_sphere_lineseg (gamestate.rs lines 40-65), translated with
the source's intermediate values as the named definitions above: the early
`a == 0.0` branch, and the two candidate roots `t_min` and `t_max`, both
computed by lines 62-63 as `(-b - sqrt(b2 - 4.0*a*c)) / 2.0 * a` (the two
lines are identical copies, and by precedence the expression divides by 2
and then multiplies by `a`).  A negative radicand, which in `f32` yields
`NaN` and makes both range tests on it false, is modelled by the explicit
`false` branch. -/
def intersect_sphere_lineseg (center : Vec3) (radius : ℚ) (v1 v2 : Vec3) : Bool :=
  if segA center radius v1 = 0 then true
  else if segDisc center radius v1 v2 < 0 then false
  else
    let t_min := (-segB center radius v1 v2 - Rat.sqrt (segDisc center radius v1 v2))
                   / 2 * segA center radius v1
    let t_max := (-segB center radius v1 v2 - Rat.sqrt (segDisc center radius v1 v2))
                   / 2 * segA center radius v1
    decide ((0 < t_min ∧ t_min < 1) ∨ (0 < t_max ∧ t_max < 1))

/-- Model of `ThreadRng`: a stream `q` of rational (`f32`) draws and a
stream `n` of natural (`u32`) draws; the tick consumes successive indices
in program order. -/
structure Rng where
  q : ℕ → ℚ
  n : ℕ → ℕ

/-- Player::respawn (gamestate.rs lines 196-209): fresh random spawn point
(three rational draws at cursor `k`), zero velocity and yaw, full ammo,
timers cleared. -/
def respawnP (rng : Rng) (k : ℕ) (p : Player) : Player :=
  { p with
    position := ⟨rng.q k, rng.q (k + 1), rng.q (k + 2)⟩,
    velocity := ⟨0, 0, 0⟩,
    rot_y := 0,
    ammo := AMMO_MAX,
    reload_timer := 0,
    fire_rate_timer := 0,
    is_dead := false,
    respawn_timer := 0 }

/-- The Bullet literal spawned at gamestate.rs lines 386-400: muzzle offset
of `PLAYER_RADIUS * 1.5` along the heading, `prev_position` initialized to
the same point as `position`, horizontal velocity `BULLET_SPEED` along the
heading. -/
def spawnBullet (p : Player) (dirx diry : ℚ) (counter : ℕ) : Bullet :=
  { team := p.team,
    guid := counter,
    position := ⟨p.position.x + PLAYER_RADIUS * (3/2) * dirx,
                 p.position.y + PLAYER_RADIUS * (3/2) * diry,
                 p.position.z⟩,
    prev_position := ⟨p.position.x + PLAYER_RADIUS * (3/2) * dirx,
                      p.position.y + PLAYER_RADIUS * (3/2) * diry,
                      p.position.z⟩,
    velocity := (dirx * BULLET_SPEED, diry * BULLET_SPEED) }

/-- Result of one player's slice of the per-player loop: the updated
player, bullet list, bullet counter, and rng cursor. -/
structure UpOut where
  player : Player
  bullets : List Bullet
  counter : ℕ
  k : ℕ
deriving DecidableEq

/-- The alive-player part of the per-player loop body (gamestate.rs lines
364-405): timer advancement, reload, thrust and turning, position
integration, and the conditional bullet spawn.  `fcos` and `fsin` are the
`f32::cos` / `f32::sin` functions, kept abstract. -/
def alivePlayerStep (fcos fsin : ℚ → ℚ) (p0 : Player) (c : ControlsQ)
    (bullets : List Bullet) (counter : ℕ) (k : ℕ) : UpOut :=
  let p1 := if p0.fire_rate_timer ≤ FIRE_RATE_TIMER_MAX
            then { p0 with fire_rate_timer := p0.fire_rate_timer + 1 } else p0
  let p2 := if p1.reload_timer ≤ RELOAD_TIMER_MAX
            then { p1 with reload_timer := p1.reload_timer + 1 }
            else if p1.ammo < AMMO_MAX
                 then { p1 with ammo := p1.ammo + 1, reload_timer := 0 }
                 else p1
  let p3 := { p2 with
              velocity := ⟨p2.velocity.x, p2.velocity.y,
                           p2.velocity.z + c.up_down * PLAYER_THRUST_FACTOR⟩,
              rot_y := p2.rot_y + c.rot_y * PLAYER_TURN_SPEED }
  let dirx := fcos p3.rot_y
  let diry := fsin p3.rot_y
  let p4 := { p3 with
              velocity := ⟨p3.velocity.x + dirx * PLAYER_THRUST_FACTOR * c.forward_back,
                           p3.velocity.y + diry * PLAYER_THRUST_FACTOR * c.forward_back,
                           p3.velocity.z⟩ }
  let p5 := { p4 with
              position := ⟨p4.position.x + p4.velocity.x,
                           p4.position.y + p4.velocity.y,
                           p4.position.z + p4.velocity.z⟩ }
  if c.shoot ∧ 0 < p5.ammo ∧ FIRE_RATE_TIMER_MAX < p5.fire_rate_timer then
    ⟨{ p5 with fire_rate_timer := 0, ammo := p5.ammo - 1 },
     bullets ++ [spawnBullet p5 dirx diry counter], counter + 1, k⟩
  else
    ⟨p5, bullets, counter, k⟩

/-- One full iteration of the per-player loop (gamestate.rs lines 347-406):
a dead player whose respawn timer has not passed the maximum only has that
timer incremented; a dead player past the maximum respawns and then runs
the alive logic in the same tick; an alive player runs the alive logic. -/
def updatePlayer (fcos fsin : ℚ → ℚ) (rng : Rng) (k : ℕ) (p : Player)
    (c : ControlsQ) (bullets : List Bullet) (counter : ℕ) : UpOut :=
  if p.is_dead then
    if p.respawn_timer ≤ MAX_PLAYER_RESPAWN_TIMER then
      ⟨{ p with respawn_timer := p.respawn_timer + 1 }, bullets, counter, k⟩
    else
      alivePlayerStep fcos fsin (respawnP rng k p) c bullets counter (k + 3)
  else
    alivePlayerStep fcos fsin p c bullets counter k

/-- The per-player stage of compute_next_tick: the four players processed
in the fixed order A1, A2, B1, B2, threading the bullet list, bullet
counter and rng cursor through. -/
def playerStage (fcos fsin : ℚ → ℚ) (rng : Rng) (k : ℕ) (st : Gamestate)
    (ca1 ca2 cb1 cb2 : ControlsQ) : Gamestate × ℕ :=
  let r1 := updatePlayer fcos fsin rng k st.player_a1 ca1 st.bullets st.bullet_counter
  let r2 := updatePlayer fcos fsin rng r1.k st.player_a2 ca2 r1.bullets r1.counter
  let r3 := updatePlayer fcos fsin rng r2.k st.player_b1 cb1 r2.bullets r2.counter
  let r4 := updatePlayer fcos fsin rng r3.k st.player_b2 cb2 r3.bullets r3.counter
  ({ st with
     player_a1 := r1.player, player_a2 := r2.player,
     player_b1 := r3.player, player_b2 := r4.player,
     bullets := r4.bullets, bullet_counter := r4.counter }, r4.k)

/-- The obstacle-spawn stage (gamestate.rs lines 317-330): increment the
spawn countdown; past the threshold, insert a new obstacle with the next
guid, a random position and radius, zero velocity, and reset the countdown
from the rng. -/
def obstacleSpawnStage (rng : Rng) (k : ℕ) (st : Gamestate) : Gamestate × ℕ :=
  let st1 := { st with obstacle_spawn_timer := st.obstacle_spawn_timer + 1 }
  if MAX_OBSTACLE_SPAWN_TIMER < st1.obstacle_spawn_timer then
    let ob : Obstacle :=
      { guid := st1.obstacle_counter,
        position := ⟨rng.q k, rng.q (k + 1), rng.q (k + 2)⟩,
        velocity := ⟨0, 0, 0⟩,
        radius := rng.q (k + 3) }
    ({ st1 with
       obstacles := st1.obstacles ++ [ob],
       obstacle_counter := st1.obstacle_counter + 1,
       obstacle_spawn_timer := rng.n k }, k + 4)
  else (st1, k)

/-- Position integration of one obstacle (add_vec3 of its velocity). -/
def moveObstacle (ob : Obstacle) : Obstacle :=
  { ob with position := ⟨ob.position.x + ob.velocity.x,
                         ob.position.y + ob.velocity.y,
                         ob.position.z + ob.velocity.z⟩ }

/-- The obstacle integrate-and-despawn stage (gamestate.rs lines 331-345):
every obstacle moves by its velocity, then exactly the entries whose new
position is outside the obstacle area are removed. -/
def obstacleMoveStage (st : Gamestate) : Gamestate :=
  { st with obstacles := ((st.obstacles.map moveObstacle).filter
      (fun ob => inside_obstacle_area ob.position)) }

/-- Position integration of one bullet (gamestate.rs lines 412-414): only
the horizontal components move; `prev_position` is not touched. -/
def moveBullet (b : Bullet) : Bullet :=
  { b with position := ⟨b.position.x + b.velocity.1,
                        b.position.y + b.velocity.2,
                        b.position.z⟩ }

/-- The bullet integrate-and-despawn stage (gamestate.rs lines 407-423):
every bullet moves horizontally, then exactly the entries whose new
position is outside the obstacle area are removed. -/
def bulletMoveStage (st : Gamestate) : Gamestate :=
  { st with bullets := ((st.bullets.map moveBullet).filter
      (fun b => inside_obstacle_area b.position)) }

/-- Kill a player: the common effect of every collision branch (is_dead
set, respawn timer cleared). -/
def killPlayer (p : Player) : Player :=
  { p with is_dead := true, respawn_timer := 0 }

/-- One unordered pair check of the player-player collision stage
(gamestate.rs lines 436-446). -/
def collidePair (p q : Player) : Player × Player :=
  if intersect_spheres p.position PLAYER_RADIUS q.position PLAYER_RADIUS
  then (killPlayer p, killPlayer q)
  else (p, q)

/-- The player-player collision stage (gamestate.rs lines 424-447): the six
unordered pairs in the source's fixed order. -/
def playerPlayerStage (st : Gamestate) : Gamestate :=
  let s1 := collidePair st.player_a1 st.player_a2
  let s2 := collidePair s1.1 st.player_b1
  let s3 := collidePair s2.1 st.player_b2
  let s4 := collidePair s1.2 s2.2
  let s5 := collidePair s4.1 s3.2
  let s6 := collidePair s4.2 s5.2
  { st with
    player_a1 := s3.1, player_a2 := s5.1,
    player_b1 := s6.1, player_b2 := s6.2 }

/-- One player's pass over the obstacle map (gamestate.rs lines 455-466):
each intersecting obstacle kills the player and charges the player's own
team one point. -/
def collideObstacles (p : Player) (obs : List Obstacle) (sc : Scores) : Player × Scores :=
  match obs with
  | [] => (p, sc)
  | ob :: rest =>
    if intersect_spheres p.position PLAYER_RADIUS ob.position ob.radius then
      collideObstacles (killPlayer p) rest (sc.add p.team (-1))
    else
      collideObstacles p rest sc

/-- The player-obstacle collision stage (gamestate.rs lines 448-467). -/
def playerObstacleStage (st : Gamestate) : Gamestate :=
  let r1 := collideObstacles st.player_a1 st.obstacles st.scores
  let r2 := collideObstacles st.player_a2 st.obstacles r1.2
  let r3 := collideObstacles st.player_b1 st.obstacles r2.2
  let r4 := collideObstacles st.player_b2 st.obstacles r3.2
  { st with
    player_a1 := r1.1, player_a2 := r2.1,
    player_b1 := r3.1, player_b2 := r4.1,
    scores := r4.2 }

/-- The effect of one detected bullet hit on the player and the scores
(gamestate.rs lines 481-489): the player dies and its respawn timer is
cleared; unless the bullet is friendly the bullet's team gains 2; the
player's team always loses 1. -/
def applyBulletHit (bl : Bullet) (p : Player) (sc : Scores) : Player × Scores :=
  let p1 := killPlayer p
  let sc1 := if bl.team ≠ p.team then sc.add bl.team 2 else sc
  (p1, sc1.add p.team (-1))

/-- One player's pass over the bullet map (gamestate.rs lines 475-490):
each bullet whose segment (current to previous position) intersects the
player's sphere applies `applyBulletHit`; the bullet map itself is not
modified by this stage. -/
def collideBullets (p : Player) (bs : List Bullet) (sc : Scores) : Player × Scores :=
  match bs with
  | [] => (p, sc)
  | bl :: rest =>
    if intersect_sphere_lineseg p.position PLAYER_RADIUS bl.position bl.prev_position then
      let r := applyBulletHit bl p sc
      collideBullets r.1 rest r.2
    else
      collideBullets p rest sc

/-- The player-bullet collision stage (gamestate.rs lines 468-491). -/
def playerBulletStage (st : Gamestate) : Gamestate :=
  let r1 := collideBullets st.player_a1 st.bullets st.scores
  let r2 := collideBullets st.player_a2 st.bullets r1.2
  let r3 := collideBullets st.player_b1 st.bullets r2.2
  let r4 := collideBullets st.player_b2 st.bullets r3.2
  { st with
    player_a1 := r1.1, player_a2 := r2.1,
    player_b1 := r3.1, player_b2 := r4.1,
    scores := r4.2 }

/-- The body of the final out-of-bounds stage for one player (gamestate.rs
lines 493-503), translated literally: the player is killed when
`inside_game_area` returns TRUE for its sphere (the source comment says
"kill players that are out-of-bounds", but the condition is not negated). -/
def oobCheck (p : Player) : Player :=
  if inside_game_area p.position PLAYER_RADIUS then killPlayer p else p

/-- The out-of-bounds stage of compute_next_tick (gamestate.rs lines
492-503), applied to the four players independently. -/
def oobStage (st : Gamestate) : Gamestate :=
  { st with
    player_a1 := oobCheck st.player_a1, player_a2 := oobCheck st.player_a2,
    player_b1 := oobCheck st.player_b1, player_b2 := oobCheck st.player_b2 }

/-- State after the main-timer increment and the two obstacle stages
(gamestate.rs lines 314-345), with the rng cursor consumed so far. -/
def preMoveState (rng : Rng) (st : Gamestate) : Gamestate × ℕ :=
  obstacleSpawnStage rng 0 { st with ticks_progressed := st.ticks_progressed + 1 }

/-- State after the per-player movement/shoot/respawn stage. -/
def postPlayerState (fcos fsin : ℚ → ℚ) (rng : Rng) (st : Gamestate)
    (ca1 ca2 cb1 cb2 : ControlsQ) : Gamestate × ℕ :=
  let pre := preMoveState rng st
  playerStage fcos fsin rng pre.2 (obstacleMoveStage pre.1) ca1 ca2 cb1 cb2

/-- State after the bullet integrate-and-despawn stage. -/
def postBulletMoveState (fcos fsin : ℚ → ℚ) (rng : Rng) (st : Gamestate)
    (ca1 ca2 cb1 cb2 : ControlsQ) : Gamestate :=
  bulletMoveStage (postPlayerState fcos fsin rng st ca1 ca2 cb1 cb2).1

/-- The whole of compute_next_tick after control resolution: the stages of
gamestate.rs lines 314-503 in source order. -/
def tickWith (fcos fsin : ℚ → ℚ) (rng : Rng) (st : Gamestate)
    (ca1 ca2 cb1 cb2 : ControlsQ) : Gamestate :=
  oobStage (playerBulletStage (playerObstacleStage (playerPlayerStage
    (postBulletMoveState fcos fsin rng st ca1 ca2 cb1 cb2))))

/-- Gamestate::compute_next_tick (gamestate.rs lines 280-504): resolve the
two competitors' input lines (parse results modelled as options), then run
the simulation stages in order. -/
def compute_next_tick (fcos fsin : ℚ → ℚ) (rng : Rng) (st : Gamestate)
    (input_a input_b : Option InputRawQ) : Gamestate :=
  tickWith fcos fsin rng st
    (resolveInput input_a).1 (resolveInput input_a).2
    (resolveInput input_b).1 (resolveInput input_b).2

/-- State after the bullet integrate-and-despawn stage, starting from the
raw (optional) parse results; `compute_next_tick` is exactly the three
collision stages and the out-of-bounds stage applied on top of this. -/
def midTickState (fcos fsin : ℚ → ℚ) (rng : Rng) (st : Gamestate)
    (input_a input_b : Option InputRawQ) : Gamestate :=
  postBulletMoveState fcos fsin rng st
    (resolveInput input_a).1 (resolveInput input_a).2
    (resolveInput input_b).1 (resolveInput input_b).2

/-- The opposite team. -/
def Team.other : Team → Team
  | Team.A => Team.B
  | Team.B => Team.A

/-- The single candidate value actually tested by the solver: because of
the precedence of `/2.0*a` the quotient `(-b - sqrt(disc))/2` is
multiplied by `a` instead of being divided by `2c`, and the `+` root is a
copy of the `-` root. -/
def segT (center : Vec3) (radius : ℚ) (v1 v2 : Vec3) : ℚ :=
  (-segB center radius v1 v2 - Rat.sqrt (segDisc center radius v1 v2))
    * segA center radius v1 / 2

/-- Model of `std::time::Duration` subtraction in whole milliseconds
(main.rs line 126-127 and 172-173): `Duration` is unsigned, and `a - b`
panics ("overflow when subtracting durations") when `b > a`; the panic is
modelled as `Except.error`. -/
def durationSub (a b : ℕ) : Except Unit ℕ :=
  if b ≤ a then Except.ok (a - b) else Except.error ()

/-- The cadence/debt block run by a competitor handler each round outside
training mode (main.rs lines 123-141 / 169-187), in whole milliseconds.
`elapsed` is the time since the previous broadcast.  The result is the new
debt plus whether the handler returned (closed the connection), and
`Except.error` models a thread panic.  The source computes
`Duration::from_millis(game_tick_delay) - since_last_broadcast` (a panic
when elapsed exceeds the target), sleeps when the remainder is positive,
and only updates `timeout_debt` under the condition
`remaining_sleep_time < Duration::from_millis(0)`, which an unsigned
`Duration` never satisfies; the update itself is `timeout_debt -= ...`
under the comment "Add to timeout deficit". -/
def cadenceStep (game_tick_delay elapsed competitor_max_debt timeout_debt : ℕ) :
    Except Unit (ℕ × Bool) :=
  match durationSub game_tick_delay elapsed with
  | Except.error _ => Except.error ()
  | Except.ok remaining_sleep_time =>
    if remaining_sleep_time < 0 then
      let debt := timeout_debt - remaining_sleep_time
      if competitor_max_debt < debt then Except.ok (debt, true)
      else Except.ok (debt, false)
    else Except.ok (timeout_debt, false)

/-- A dead player with the given slot data and respawn timer, used for
concrete test states. -/
def mkDeadPlayer (t : Team) (pos : Vec3) (timer : ℕ) : Player :=
  ⟨t, pos, ⟨0, 0, 0⟩, 0, AMMO_MAX, 0, 0, true, timer⟩

/-- An alive player at a given position with spawn-default resources. -/
def mkAlivePlayer (t : Team) (pos : Vec3) : Player :=
  ⟨t, pos, ⟨0, 0, 0⟩, 0, AMMO_MAX, 0, 0, false, 0⟩

/-- An rng whose streams are constantly zero (dead players and empty maps
consume no draws, so the theorems using it do not depend on this choice). -/
def rng0 : Rng := ⟨fun _ => 0, fun _ => 0⟩

/-- The constant-zero stand-in for the abstract `f32::cos` / `f32::sin`
(never consulted in the concrete states below: every player is dead). -/
def zfun : ℚ → ℚ := fun _ => 0

/-- Concrete quiet state: all four players dead with small respawn timers,
placed touching the arena walls (their spheres are NOT fully contained in
the game area), far apart, with no obstacles and no bullets. -/
def exBase : Gamestate :=
  { ticks_progressed := 0, max_game_ticks := 10000,
    obstacles := [], obstacle_counter := 0, obstacle_spawn_timer := 0,
    bullets := [], bullet_counter := 0,
    player_a1 := mkDeadPlayer Team.A ⟨20, 0, 0⟩ 3,
    player_a2 := mkDeadPlayer Team.A ⟨-20, 0, 0⟩ 4,
    player_b1 := mkDeadPlayer Team.B ⟨0, 20, 0⟩ 5,
    player_b2 := mkDeadPlayer Team.B ⟨0, -20, 0⟩ 6,
    scores := ⟨0, 0⟩ }

/-- Like `exBase` but with player A1 dead at the arena center, where its
sphere IS fully contained in the game area. -/
def exC2 : Gamestate :=
  { exBase with player_a1 := mkDeadPlayer Team.A ⟨0, 0, 0⟩ 5 }

/-- A state with one bullet (team B, guid 0) that this tick moves to
(5,0,0) - exactly distance `PLAYER_RADIUS` from dead player A1 at (4,0,0),
so the solver's `a == 0` branch reports a hit - while staying inside the
obstacle area; every other player is far away. -/
def exC3 : Gamestate :=
  { exBase with
    player_a1 := mkDeadPlayer Team.A ⟨4, 0, 0⟩ 3,
    player_a2 := mkDeadPlayer Team.A ⟨0, 0, -15⟩ 4,
    player_b1 := mkDeadPlayer Team.B ⟨0, 15, 0⟩ 5,
    player_b2 := mkDeadPlayer Team.B ⟨0, 0, 15⟩ 6,
    bullets := [⟨Team.B, 0, ⟨19/4, 0, 0⟩, ⟨6, 0, 0⟩, (1/4, 0)⟩],
    bullet_counter := 1 }

/-- Concrete scores for the C6 witness. -/
def exScores : Scores := ⟨10, 20⟩

/-- A team-B bullet for the C6 witness. -/
def exBulletB : Bullet := ⟨Team.B, 7, ⟨0, 0, 0⟩, ⟨1, 0, 0⟩, (0, 0)⟩

/-- A team-A bullet for the C6 witness. -/
def exBulletA : Bullet := ⟨Team.A, 8, ⟨0, 0, 0⟩, ⟨1, 0, 0⟩, (0, 0)⟩

/-- A raw input with out-of-range and in-range fields for the C7 witness. -/
def exRawC7 : InputRaw :=
  ⟨⟨F32.val (-3), F32.val 5, F32.val (1/2), true⟩,
   ⟨F32.val 2, F32.val (-2), F32.val 0, false⟩⟩

/-- A raw input whose numeric fields are all NaN, for the C10 witness. -/
def exRawNan : InputRaw :=
  ⟨⟨F32.nan, F32.nan, F32.nan, true⟩,
   ⟨F32.nan, F32.nan, F32.nan, false⟩⟩

/-! Helper lemmas about the collision primitives and the stages. -/

theorem Scores.get_add_same (s : Scores) (t : Team) (n : ℤ) :
    (s.add t n).get t = s.get t + n := by
  cases t <;> rfl

theorem Scores.get_add_other (s : Scores) (t u : Team) (n : ℤ) (h : t ≠ u) :
    (s.add t n).get u = s.get u := by
  cases t <;> cases u <;> first | rfl | exact absurd rfl h

theorem intersect_spheres_symm (c1 c2 : Vec3) (r1 r2 : ℚ) :
    intersect_spheres c1 r1 c2 r2 = intersect_spheres c2 r2 c1 r1 := by
  unfold intersect_spheres
  rw [decide_eq_decide]
  have e1 : (c1.x - c2.x) * (c1.x - c2.x) + (c1.y - c2.y) * (c1.y - c2.y) +
      (c1.z - c2.z) * (c1.z - c2.z) = (c2.x - c1.x) * (c2.x - c1.x) +
      (c2.y - c1.y) * (c2.y - c1.y) + (c2.z - c1.z) * (c2.z - c1.z) := by ring
  have e2 : (r2 + r1) * (r2 + r1) = (r1 + r2) * (r1 + r2) := by ring
  rw [e1, e2]

theorem collidePair_fst_position (p q : Player) :
    ((collidePair p q).1).position = p.position := by
  unfold collidePair
  split <;> rfl

theorem collidePair_snd_position (p q : Player) :
    ((collidePair p q).2).position = q.position := by
  unfold collidePair
  split <;> rfl

theorem collidePair_of_no_hit (p q : Player)
    (h : intersect_spheres p.position PLAYER_RADIUS q.position PLAYER_RADIUS = false) :
    collidePair p q = (p, q) := by
  unfold collidePair
  rw [h]
  rfl

/-- C1: the out-of-bounds stage of compute_next_tick kills exactly the
players whose spheres ARE fully contained in the arena cube, the opposite
of the claim (and of the source's own comment "kill players that are
out-of-bounds"): an alive player at the center, fully contained, is killed
with its respawn timer cleared, while a player protruding past the wall at
(25,0,0) is left unchanged. -/
theorem C1_oob_stage_kills_contained_players :
    inside_game_area ⟨0, 0, 0⟩ PLAYER_RADIUS = true ∧
    (mkAlivePlayer Team.A ⟨0, 0, 0⟩).is_dead = false ∧
    oobCheck (mkAlivePlayer Team.A ⟨0, 0, 0⟩)
      = killPlayer (mkAlivePlayer Team.A ⟨0, 0, 0⟩) ∧
    inside_game_area ⟨25, 0, 0⟩ PLAYER_RADIUS = false ∧
    oobCheck (mkAlivePlayer Team.A ⟨25, 0, 0⟩) = mkAlivePlayer Team.A ⟨25, 0, 0⟩ := by
  have h1 : inside_game_area ⟨0, 0, 0⟩ PLAYER_RADIUS = true := by
    simp [inside_game_area, GAME_AREA_SIZE, PLAYER_RADIUS]
  have h2 : inside_game_area ⟨25, 0, 0⟩ PLAYER_RADIUS = false := by
    simp [inside_game_area, GAME_AREA_SIZE, PLAYER_RADIUS]
    norm_num
  refine ⟨h1, rfl, ?_, h2, ?_⟩
  · simp [oobCheck, mkAlivePlayer] at h1 ⊢
    simp [h1]
  · simp [oobCheck, mkAlivePlayer] at h2 ⊢
    simp [h2]

/-- C5: the cadence/debt tracker, as coded, never accumulates debt and
never evicts through the debt ceiling: a round that is on time (elapsed 10
of a 16 ms target) leaves debt unchanged and the connection open, a round
that is late by a single millisecond (elapsed 17) panics the handler
thread on `Duration` underflow instead of adding 1 to the debt, and in
general every non-panicking round returns the debt unchanged with the
connection kept open. -/
theorem C5_debt_tracker_dead_code :
    cadenceStep 16 10 1000 0 = Except.ok (0, false) ∧
    cadenceStep 16 17 1000 0 = Except.error () ∧
    ∀ delay elapsed maxDebt debt : ℕ,
      cadenceStep delay elapsed maxDebt debt
        = if elapsed ≤ delay then Except.ok (debt, false) else Except.error () := by
  refine ⟨?_, ?_, ?_⟩
  · simp [cadenceStep, durationSub]
  · simp [cadenceStep, durationSub]
  · intro delay elapsed maxDebt debt
    unfold cadenceStep durationSub
    by_cases h : elapsed ≤ delay
    · simp [h]
    · simp [h]

/-- C7: validate_raw_controls stores every numeric field of both control
blocks passed through the `[-1, 1]` clamp and the shoot flags as received;
and on ordinary (non-NaN) values the clamp returns the nearer boundary for
out-of-range inputs and the value itself for in-range inputs. -/
theorem C7_controls_clamped :
    (∀ raw : InputRaw,
      (validate_raw_controls raw).1.rot_y = fclamp raw.controls_1.rot_y (-1) 1 ∧
      (validate_raw_controls raw).1.forward_back = fclamp raw.controls_1.forward_back (-1) 1 ∧
      (validate_raw_controls raw).1.up_down = fclamp raw.controls_1.up_down (-1) 1 ∧
      (validate_raw_controls raw).1.shoot = raw.controls_1.shoot ∧
      (validate_raw_controls raw).2.rot_y = fclamp raw.controls_2.rot_y (-1) 1 ∧
      (validate_raw_controls raw).2.forward_back = fclamp raw.controls_2.forward_back (-1) 1 ∧
      (validate_raw_controls raw).2.up_down = fclamp raw.controls_2.up_down (-1) 1 ∧
      (validate_raw_controls raw).2.shoot = raw.controls_2.shoot) ∧
    ∀ q : ℚ,
      (q < -1 → fclamp (F32.val q) (-1) 1 = F32.val (-1)) ∧
      (1 < q → fclamp (F32.val q) (-1) 1 = F32.val 1) ∧
      (-1 ≤ q → q ≤ 1 → fclamp (F32.val q) (-1) 1 = F32.val q) := by
  constructor
  · intro raw
    exact ⟨rfl, rfl, rfl, rfl, rfl, rfl, rfl, rfl⟩
  · intro q
    refine ⟨fun h => ?_, fun h => ?_, fun h1 h2 => ?_⟩
    · simp [fclamp, h]
    · have h2 : ¬ q < -1 := by linarith
      simp [fclamp, h, h2]
    · have h3 : ¬ q < -1 := by linarith
      have h4 : ¬ 1 < q := by linarith
      simp [fclamp, h3, h4]

/-- Witness for C7 at concrete inputs: -3 clamps to -1, 5 clamps to 1,
1/2 is stored unchanged, and the stored rot_y of a concrete raw message is
its clamp, with the shoot flag as received. -/
theorem C7_controls_clamped_witness :
    fclamp (F32.val (-3)) (-1) 1 = F32.val (-1) ∧
    fclamp (F32.val 5) (-1) 1 = F32.val 1 ∧
    fclamp (F32.val (1/2)) (-1) 1 = F32.val (1/2) ∧
    (validate_raw_controls exRawC7).1.rot_y = fclamp (F32.val (-3)) (-1) 1 ∧
    (validate_raw_controls exRawC7).1.shoot = true :=
  ⟨(C7_controls_clamped.2 (-3)).1 (by norm_num),
   (C7_controls_clamped.2 5).2.1 (by norm_num),
   (C7_controls_clamped.2 (1/2)).2.2 (by norm_num) (by norm_num),
   (C7_controls_clamped.1 exRawC7).1,
   ((C7_controls_clamped.1 exRawC7).2.2.2.1).trans rfl⟩

/-- C10: the clamp passes NaN through unchanged, so a NaN numeric field of
a well-formed message is stored as NaN by validate_raw_controls; stored
values are guaranteed to lie in `[-1, 1]` only for non-NaN inputs. -/
theorem C10_nan_passes_validation :
    (∀ raw : InputRaw,
      (raw.controls_1.rot_y = F32.nan → (validate_raw_controls raw).1.rot_y = F32.nan) ∧
      (raw.controls_1.forward_back = F32.nan →
        (validate_raw_controls raw).1.forward_back = F32.nan) ∧
      (raw.controls_1.up_down = F32.nan → (validate_raw_controls raw).1.up_down = F32.nan) ∧
      (raw.controls_2.rot_y = F32.nan → (validate_raw_controls raw).2.rot_y = F32.nan) ∧
      (raw.controls_2.forward_back = F32.nan →
        (validate_raw_controls raw).2.forward_back = F32.nan) ∧
      (raw.controls_2.up_down = F32.nan → (validate_raw_controls raw).2.up_down = F32.nan)) ∧
    fclamp F32.nan (-1) 1 = F32.nan ∧
    ∀ q : ℚ, ∃ r : ℚ, fclamp (F32.val q) (-1) 1 = F32.val r ∧ -1 ≤ r ∧ r ≤ 1 := by
  refine ⟨?_, rfl, ?_⟩
  · intro raw
    refine ⟨fun h => ?_, fun h => ?_, fun h => ?_, fun h => ?_, fun h => ?_, fun h => ?_⟩ <;>
      simp [validate_raw_controls, h, fclamp]
  · intro q
    by_cases h1 : q < -1
    · exact ⟨-1, by simp [fclamp, h1], by norm_num, by norm_num⟩
    · by_cases h2 : 1 < q
      · exact ⟨1, by simp [fclamp, h1, h2], by norm_num, by norm_num⟩
      · exact ⟨q, by simp [fclamp, h1, h2], by linarith, by linarith⟩

/-- Witness for C10: a message whose six numeric fields are all NaN is
stored with all six fields NaN. -/
theorem C10_nan_passes_validation_witness :
    (validate_raw_controls exRawNan).1.rot_y = F32.nan ∧
    (validate_raw_controls exRawNan).1.forward_back = F32.nan ∧
    (validate_raw_controls exRawNan).1.up_down = F32.nan ∧
    (validate_raw_controls exRawNan).2.rot_y = F32.nan ∧
    (validate_raw_controls exRawNan).2.forward_back = F32.nan ∧
    (validate_raw_controls exRawNan).2.up_down = F32.nan :=
  ⟨(C10_nan_passes_validation.1 exRawNan).1 rfl,
   (C10_nan_passes_validation.1 exRawNan).2.1 rfl,
   (C10_nan_passes_validation.1 exRawNan).2.2.1 rfl,
   (C10_nan_passes_validation.1 exRawNan).2.2.2.1 rfl,
   (C10_nan_passes_validation.1 exRawNan).2.2.2.2.1 rfl,
   (C10_nan_passes_validation.1 exRawNan).2.2.2.2.2 rfl⟩

/-- C9: a spawned bullet's prev_position equals its position; the bullet
integration step moves only the horizontal position components and leaves
prev_position untouched; hence after k integration steps the stored
segment of a bullet spawned this match still starts at its spawn point. -/
theorem C9_bullet_prev_position_is_spawn_point :
    ∀ (p : Player) (dx dy : ℚ) (n k : ℕ) (b : Bullet),
      (spawnBullet p dx dy n).prev_position = (spawnBullet p dx dy n).position ∧
      (moveBullet b).prev_position = b.prev_position ∧
      (moveBullet b).position
        = ⟨b.position.x + b.velocity.1, b.position.y + b.velocity.2, b.position.z⟩ ∧
      (moveBullet^[k] b).prev_position = b.prev_position ∧
      (moveBullet^[k] (spawnBullet p dx dy n)).prev_position
        = (spawnBullet p dx dy n).position := by
  intro p dx dy n k b
  have hiter : ∀ (m : ℕ) (b2 : Bullet), (moveBullet^[m] b2).prev_position = b2.prev_position := by
    intro m
    induction m with
    | zero => intro b2; rfl
    | succ m ih =>
      intro b2
      rw [Function.iterate_succ_apply]
      exact ih (moveBullet b2)
  exact ⟨rfl, rfl, rfl, hiter k b, (hiter k _).trans rfl⟩

/-- C8: a failed parse of a competitor's input line resolves to the
neutral controls (all numeric fields 0, shoot false) for both of that
competitor's avatars, and the tick then proceeds exactly as the normal
simulation pipeline applied to those neutral controls (the error aborts
nothing). -/
theorem C8_malformed_input_is_neutral :
    resolveInput none = (ControlsQ.empty, ControlsQ.empty) ∧
    ControlsQ.empty = ⟨0, 0, 0, false⟩ ∧
    (∀ (fcos fsin : ℚ → ℚ) (rng : Rng) (st : Gamestate) (ib : Option InputRawQ),
      compute_next_tick fcos fsin rng st none ib
        = tickWith fcos fsin rng st ControlsQ.empty ControlsQ.empty
            (resolveInput ib).1 (resolveInput ib).2) ∧
    (∀ (fcos fsin : ℚ → ℚ) (rng : Rng) (st : Gamestate) (ia : Option InputRawQ),
      compute_next_tick fcos fsin rng st ia none
        = tickWith fcos fsin rng st
            (resolveInput ia).1 (resolveInput ia).2 ControlsQ.empty ControlsQ.empty) :=
  ⟨rfl, rfl, fun _ _ _ _ _ => rfl, fun _ _ _ _ _ => rfl⟩

/-- C6: the per-collision score update of the player-bullet stage: when
the bullet's team differs from the victim's, the bullet's team gains
exactly 2 and the victim's team loses exactly 1 in the same update; on a
friendly-fire hit the only change is the victim's team losing exactly 1. -/
theorem C6_bullet_hit_score_deltas :
    ∀ (bl : Bullet) (p : Player) (sc : Scores),
      (bl.team ≠ p.team →
        ((applyBulletHit bl p sc).2.get bl.team = sc.get bl.team + 2 ∧
         (applyBulletHit bl p sc).2.get p.team = sc.get p.team - 1)) ∧
      (bl.team = p.team →
        ((applyBulletHit bl p sc).2.get p.team = sc.get p.team - 1 ∧
         (applyBulletHit bl p sc).2.get p.team.other = sc.get p.team.other)) := by
  intro bl p sc
  constructor
  · intro hne
    have e : (applyBulletHit bl p sc).2 = (sc.add bl.team 2).add p.team (-1) := by
      simp [applyBulletHit, hne]
    rw [e]
    constructor
    · rw [Scores.get_add_other _ _ _ _ (Ne.symm hne), Scores.get_add_same]
    · rw [Scores.get_add_same, Scores.get_add_other _ _ _ _ hne]
      ring
  · intro heq
    have e : (applyBulletHit bl p sc).2 = sc.add p.team (-1) := by
      simp [applyBulletHit, heq]
    rw [e]
    have hne2 : p.team ≠ p.team.other := by cases p.team <;> simp [Team.other]
    constructor
    · rw [Scores.get_add_same]
      ring
    · rw [Scores.get_add_other _ _ _ _ hne2]

/-- Witness for C6 at concrete inputs: a team-B bullet hitting a team-A
player takes scores (10, 20) to B = 22 and A = 9; a team-A bullet hitting
the same player only takes A to 9 and leaves B at 20. -/
theorem C6_bullet_hit_score_deltas_witness :
    (applyBulletHit exBulletB (mkAlivePlayer Team.A ⟨0, 0, 0⟩) exScores).2.get Team.B
      = exScores.get Team.B + 2 ∧
    (applyBulletHit exBulletB (mkAlivePlayer Team.A ⟨0, 0, 0⟩) exScores).2.get Team.A
      = exScores.get Team.A - 1 ∧
    (applyBulletHit exBulletA (mkAlivePlayer Team.A ⟨0, 0, 0⟩) exScores).2.get Team.A
      = exScores.get Team.A - 1 ∧
    (applyBulletHit exBulletA (mkAlivePlayer Team.A ⟨0, 0, 0⟩) exScores).2.get Team.B
      = exScores.get Team.B := by
  have h1 := (C6_bullet_hit_score_deltas exBulletB (mkAlivePlayer Team.A ⟨0, 0, 0⟩) exScores).1
    (by simp [exBulletB, mkAlivePlayer])
  have h2 := (C6_bullet_hit_score_deltas exBulletA (mkAlivePlayer Team.A ⟨0, 0, 0⟩) exScores).2
    (by simp [exBulletA, mkAlivePlayer])
  exact ⟨h1.1, h1.2, h2.1, h2.2⟩

/-- The computed coefficients do describe the substitution quadratic: for
every `t`, `c*t^2 + b*t + a` equals the parametric point's sphere
equation residue. -/
theorem seg_quadratic_is_substitution (center : Vec3) (radius : ℚ) (v1 v2 : Vec3) (t : ℚ) :
    segC v1 v2 * t ^ 2 + segB center radius v1 v2 * t + segA center radius v1
      = ((1 - t) * v1.x + t * v2.x - center.x) ^ 2
        + ((1 - t) * v1.y + t * v2.y - center.y) ^ 2
        + ((1 - t) * v1.z + t * v2.z - center.z) ^ 2 - radius ^ 2 := by
  unfold segB segA segC
  ring

/-- C4 counterexample: for the sphere of radius 1 at the origin and the
segment from (2,0,0) to (-2,0,0), the substitution quadratic has the real
root t = 1/4 strictly between 0 and 1 (the segment passes straight through
the sphere) and the computed `a` is nonzero, yet the solver returns false:
its tested value is `(-b - sqrt(b^2-4ac))/2 * a = 12`, not a root. -/
theorem C4_counterexample :
    segA ⟨0, 0, 0⟩ 1 ⟨2, 0, 0⟩ ≠ 0 ∧
    segC ⟨2, 0, 0⟩ ⟨-2, 0, 0⟩ * (1/4 : ℚ) ^ 2
      + segB ⟨0, 0, 0⟩ 1 ⟨2, 0, 0⟩ ⟨-2, 0, 0⟩ * (1/4 : ℚ)
      + segA ⟨0, 0, 0⟩ 1 ⟨2, 0, 0⟩ = 0 ∧
    (0 : ℚ) < 1/4 ∧ (1/4 : ℚ) < 1 ∧
    intersect_sphere_lineseg ⟨0, 0, 0⟩ 1 ⟨2, 0, 0⟩ ⟨-2, 0, 0⟩ = false := by
  have ha : segA ⟨0, 0, 0⟩ 1 ⟨2, 0, 0⟩ = 3 := by
    unfold segA
    norm_num
  have hb : segB ⟨0, 0, 0⟩ 1 ⟨2, 0, 0⟩ ⟨-2, 0, 0⟩ = -16 := by
    unfold segB segA segC
    norm_num
  have hc : segC ⟨2, 0, 0⟩ ⟨-2, 0, 0⟩ = 16 := by
    unfold segC
    norm_num
  have hd : segDisc ⟨0, 0, 0⟩ 1 ⟨2, 0, 0⟩ ⟨-2, 0, 0⟩ = 64 := by
    unfold segDisc
    rw [ha, hb, hc]
    norm_num
  have hs : Rat.sqrt 64 = 8 := by
    rw [show (64 : ℚ) = 8 * 8 by norm_num, Rat.sqrt_eq]
    norm_num
  refine ⟨by rw [ha]; norm_num, by rw [ha, hb, hc]; norm_num, by norm_num, by norm_num, ?_⟩
  unfold intersect_sphere_lineseg
  rw [ha, hb, hd, hs]
  norm_num

/-- C4 (amended): the solver returns true exactly when the computed
constant coefficient `a` is exactly zero, or else when the radicand
`b^2 - 4ac` is nonnegative and the single tested value
`(-b - sqrt(b^2-4ac))/2 * a` (the same expression on both of the source's
`t_min`/`t_max` lines; by precedence it multiplies the half-difference by
`a` instead of dividing by `2c`) lies strictly between 0 and 1.  That
value is in general not a root of the substitution quadratic, so the claim
as stated - a hit exactly when a real root lies in (0,1) - fails. -/
theorem C4_solver_tests_single_nonroot_value :
    ∀ (center : Vec3) (radius : ℚ) (v1 v2 : Vec3),
      intersect_sphere_lineseg center radius v1 v2 = true ↔
        (segA center radius v1 = 0 ∨
         (0 ≤ segDisc center radius v1 v2 ∧
          0 < segT center radius v1 v2 ∧ segT center radius v1 v2 < 1)) := by
  intro center radius v1 v2
  unfold intersect_sphere_lineseg
  by_cases ha : segA center radius v1 = 0
  · simp [ha]
  · by_cases hd : segDisc center radius v1 v2 < 0
    · simp [ha, hd, not_le.mpr hd]
    · have ht : (-segB center radius v1 v2 - Rat.sqrt (segDisc center radius v1 v2))
          / 2 * segA center radius v1 = segT center radius v1 v2 := by
        unfold segT
        ring
      simp only [ha, hd, if_false, if_neg ha, if_neg hd, ht, decide_eq_true_eq, or_self]
      simp [not_lt.mp hd, ha]

/-! Frame lemmas: which fields each stage leaves untouched. -/

theorem obstacleSpawnStage_getP (rng : Rng) (k : ℕ) (st : Gamestate) (pid : PId) :
    ((obstacleSpawnStage rng k st).1).getP pid = st.getP pid := by
  unfold obstacleSpawnStage
  dsimp only
  split <;> cases pid <;> rfl

theorem obstacleSpawnStage_scores (rng : Rng) (k : ℕ) (st : Gamestate) :
    ((obstacleSpawnStage rng k st).1).scores = st.scores := by
  unfold obstacleSpawnStage
  dsimp only
  split <;> rfl

theorem obstacleSpawnStage_bullets (rng : Rng) (k : ℕ) (st : Gamestate) :
    ((obstacleSpawnStage rng k st).1).bullets = st.bullets := by
  unfold obstacleSpawnStage
  dsimp only
  split <;> rfl

theorem obstacleSpawnStage_bullet_counter (rng : Rng) (k : ℕ) (st : Gamestate) :
    ((obstacleSpawnStage rng k st).1).bullet_counter = st.bullet_counter := by
  unfold obstacleSpawnStage
  dsimp only
  split <;> rfl

theorem obstacleMoveStage_getP (st : Gamestate) (pid : PId) :
    (obstacleMoveStage st).getP pid = st.getP pid := by
  cases pid <;> rfl

theorem obstacleMoveStage_scores (st : Gamestate) :
    (obstacleMoveStage st).scores = st.scores := rfl

theorem obstacleMoveStage_bullets (st : Gamestate) :
    (obstacleMoveStage st).bullets = st.bullets := rfl

theorem obstacleMoveStage_bullet_counter (st : Gamestate) :
    (obstacleMoveStage st).bullet_counter = st.bullet_counter := rfl

theorem playerStage_scores (fcos fsin : ℚ → ℚ) (rng : Rng) (k : ℕ) (st : Gamestate)
    (ca1 ca2 cb1 cb2 : ControlsQ) :
    ((playerStage fcos fsin rng k st ca1 ca2 cb1 cb2).1).scores = st.scores := rfl

theorem playerStage_obstacles (fcos fsin : ℚ → ℚ) (rng : Rng) (k : ℕ) (st : Gamestate)
    (ca1 ca2 cb1 cb2 : ControlsQ) :
    ((playerStage fcos fsin rng k st ca1 ca2 cb1 cb2).1).obstacles = st.obstacles := rfl

theorem bulletMoveStage_getP (st : Gamestate) (pid : PId) :
    (bulletMoveStage st).getP pid = st.getP pid := by
  cases pid <;> rfl

theorem bulletMoveStage_scores (st : Gamestate) :
    (bulletMoveStage st).scores = st.scores := rfl

theorem bulletMoveStage_obstacles (st : Gamestate) :
    (bulletMoveStage st).obstacles = st.obstacles := rfl

theorem playerPlayerStage_obstacles (st : Gamestate) :
    (playerPlayerStage st).obstacles = st.obstacles := rfl

theorem playerPlayerStage_bullets (st : Gamestate) :
    (playerPlayerStage st).bullets = st.bullets := rfl

theorem playerPlayerStage_scores (st : Gamestate) :
    (playerPlayerStage st).scores = st.scores := rfl

theorem playerObstacleStage_bullets (st : Gamestate) :
    (playerObstacleStage st).bullets = st.bullets := rfl

theorem playerBulletStage_bullets (st : Gamestate) :
    (playerBulletStage st).bullets = st.bullets := rfl

theorem oobStage_scores (st : Gamestate) :
    (oobStage st).scores = st.scores := rfl

theorem oobStage_bullets (st : Gamestate) :
    (oobStage st).bullets = st.bullets := rfl

theorem oobStage_getP (st : Gamestate) (pid : PId) :
    (oobStage st).getP pid = oobCheck (st.getP pid) := by
  cases pid <;> rfl

theorem oobCheck_id (p : Player)
    (h : inside_game_area p.position PLAYER_RADIUS = false) : oobCheck p = p := by
  unfold oobCheck
  rw [h]
  simp

theorem moveBullet_guid (b : Bullet) : (moveBullet b).guid = b.guid := rfl

/-! Lemmas about the per-player loop body. -/

theorem updatePlayer_dead (fcos fsin : ℚ → ℚ) (rng : Rng) (k : ℕ) (p : Player)
    (c : ControlsQ) (bullets : List Bullet) (counter : ℕ)
    (hdead : p.is_dead = true) (htimer : p.respawn_timer ≤ MAX_PLAYER_RESPAWN_TIMER) :
    updatePlayer fcos fsin rng k p c bullets counter
      = ⟨{ p with respawn_timer := p.respawn_timer + 1 }, bullets, counter, k⟩ := by
  unfold updatePlayer
  rw [hdead]
  simp [htimer]

theorem playerStage_getP_dead (fcos fsin : ℚ → ℚ) (rng : Rng) (k : ℕ) (st : Gamestate)
    (ca1 ca2 cb1 cb2 : ControlsQ) (pid : PId)
    (hdead : (st.getP pid).is_dead = true)
    (htimer : (st.getP pid).respawn_timer ≤ MAX_PLAYER_RESPAWN_TIMER) :
    ((playerStage fcos fsin rng k st ca1 ca2 cb1 cb2).1).getP pid
      = { st.getP pid with respawn_timer := (st.getP pid).respawn_timer + 1 } := by
  cases pid with
  | a1 =>
    simp only [Gamestate.getP] at hdead htimer ⊢
    simp only [playerStage]
    rw [updatePlayer_dead _ _ _ _ _ _ _ _ hdead htimer]
  | a2 =>
    simp only [Gamestate.getP] at hdead htimer ⊢
    simp only [playerStage]
    rw [updatePlayer_dead _ _ _ _ _ _ _ _ hdead htimer]
  | b1 =>
    simp only [Gamestate.getP] at hdead htimer ⊢
    simp only [playerStage]
    rw [updatePlayer_dead _ _ _ _ _ _ _ _ hdead htimer]
  | b2 =>
    simp only [Gamestate.getP] at hdead htimer ⊢
    simp only [playerStage]
    rw [updatePlayer_dead _ _ _ _ _ _ _ _ hdead htimer]

theorem midTickState_getP_dead (fcos fsin : ℚ → ℚ) (rng : Rng) (st : Gamestate)
    (ia ib : Option InputRawQ) (pid : PId)
    (hdead : (st.getP pid).is_dead = true)
    (htimer : (st.getP pid).respawn_timer ≤ MAX_PLAYER_RESPAWN_TIMER) :
    (midTickState fcos fsin rng st ia ib).getP pid
      = { st.getP pid with respawn_timer := (st.getP pid).respawn_timer + 1 } := by
  unfold midTickState postBulletMoveState postPlayerState preMoveState
  dsimp only
  rw [bulletMoveStage_getP]
  have hpre : (obstacleMoveStage
      ((obstacleSpawnStage rng 0
        { st with ticks_progressed := st.ticks_progressed + 1 }).1)).getP pid
      = st.getP pid := by
    rw [obstacleMoveStage_getP, obstacleSpawnStage_getP]
    cases pid <;> rfl
  have hps := playerStage_getP_dead fcos fsin rng
      (obstacleSpawnStage rng 0 { st with ticks_progressed := st.ticks_progressed + 1 }).2
      (obstacleMoveStage
        (obstacleSpawnStage rng 0 { st with ticks_progressed := st.ticks_progressed + 1 }).1)
      (resolveInput ia).1 (resolveInput ia).2 (resolveInput ib).1 (resolveInput ib).2 pid
      (by rw [hpre]; exact hdead) (by rw [hpre]; exact htimer)
  rw [hps, hpre]

theorem midTickState_scores (fcos fsin : ℚ → ℚ) (rng : Rng) (st : Gamestate)
    (ia ib : Option InputRawQ) :
    (midTickState fcos fsin rng st ia ib).scores = st.scores := by
  unfold midTickState postBulletMoveState postPlayerState preMoveState
  dsimp only
  rw [bulletMoveStage_scores, playerStage_scores, obstacleMoveStage_scores,
    obstacleSpawnStage_scores]

theorem playerPlayerStage_getP_position (st : Gamestate) (pid : PId) :
    ((playerPlayerStage st).getP pid).position = (st.getP pid).position := by
  cases pid <;>
    simp only [playerPlayerStage, Gamestate.getP] <;>
    simp [collidePair_fst_position, collidePair_snd_position]

theorem playerPlayerStage_getP_no_hit (st : Gamestate) (pid : PId)
    (h : ∀ q : PId, q ≠ pid →
      intersect_spheres ((st.getP pid).position) PLAYER_RADIUS
        ((st.getP q).position) PLAYER_RADIUS = false) :
    (playerPlayerStage st).getP pid = st.getP pid := by
  cases pid with
  | a1 =>
    have h2 := h PId.a2 (by decide)
    have h3 := h PId.b1 (by decide)
    have h4 := h PId.b2 (by decide)
    simp only [Gamestate.getP] at h2 h3 h4 ⊢
    simp only [playerPlayerStage]
    simp only [collidePair_of_no_hit _ _ h2]
    simp only [collidePair_of_no_hit _ _ h3]
    simp only [collidePair_of_no_hit _ _ h4]
  | a2 =>
    have h1 : intersect_spheres st.player_a1.position PLAYER_RADIUS
        st.player_a2.position PLAYER_RADIUS = false := by
      rw [intersect_spheres_symm]
      have := h PId.a1 (by decide)
      simpa [Gamestate.getP] using this
    have hb1 := h PId.b1 (by decide)
    have hb2 := h PId.b2 (by decide)
    simp only [Gamestate.getP] at hb1 hb2 ⊢
    simp only [playerPlayerStage]
    simp only [collidePair_of_no_hit _ _ h1]
    have e4 := collidePair_of_no_hit st.player_a2
      ((collidePair st.player_a1 st.player_b1).2)
      (by rw [collidePair_snd_position]; exact hb1)
    simp only [e4]
    have e5 := collidePair_of_no_hit st.player_a2
      ((collidePair (collidePair st.player_a1 st.player_b1).1 st.player_b2).2)
      (by rw [collidePair_snd_position]; exact hb2)
    simp only [e5]
  | b1 =>
    have ha1 : intersect_spheres ((collidePair st.player_a1 st.player_a2).1).position
        PLAYER_RADIUS st.player_b1.position PLAYER_RADIUS = false := by
      rw [collidePair_fst_position, intersect_spheres_symm]
      have := h PId.a1 (by decide)
      simpa [Gamestate.getP] using this
    have ha2 : intersect_spheres ((collidePair st.player_a1 st.player_a2).2).position
        PLAYER_RADIUS st.player_b1.position PLAYER_RADIUS = false := by
      rw [collidePair_snd_position, intersect_spheres_symm]
      have := h PId.a2 (by decide)
      simpa [Gamestate.getP] using this
    have hb2 := h PId.b2 (by decide)
    simp only [Gamestate.getP] at hb2 ⊢
    simp only [playerPlayerStage]
    have e2 := collidePair_of_no_hit ((collidePair st.player_a1 st.player_a2).1)
      st.player_b1 ha1
    simp only [e2]
    have e4 := collidePair_of_no_hit ((collidePair st.player_a1 st.player_a2).2)
      st.player_b1 ha2
    simp only [e4]
    have e6 := collidePair_of_no_hit st.player_b1
      ((collidePair ((collidePair st.player_a1 st.player_a2).2)
        ((collidePair ((collidePair st.player_a1 st.player_a2).1) st.player_b2).2)).2)
      (by rw [collidePair_snd_position, collidePair_snd_position]; exact hb2)
    simp only [e6]
  | b2 =>
    have ha1 : intersect_spheres
        ((collidePair (collidePair st.player_a1 st.player_a2).1 st.player_b1).1).position
        PLAYER_RADIUS st.player_b2.position PLAYER_RADIUS = false := by
      rw [collidePair_fst_position, collidePair_fst_position, intersect_spheres_symm]
      have := h PId.a1 (by decide)
      simpa [Gamestate.getP] using this
    simp only [Gamestate.getP]
    simp only [playerPlayerStage]
    have e3 := collidePair_of_no_hit
      ((collidePair (collidePair st.player_a1 st.player_a2).1 st.player_b1).1)
      st.player_b2 ha1
    simp only [e3]
    have ha2 : intersect_spheres
        ((collidePair ((collidePair st.player_a1 st.player_a2).2)
          ((collidePair (collidePair st.player_a1 st.player_a2).1 st.player_b1).2)).1).position
        PLAYER_RADIUS st.player_b2.position PLAYER_RADIUS = false := by
      rw [collidePair_fst_position, collidePair_snd_position, intersect_spheres_symm]
      have := h PId.a2 (by decide)
      simpa [Gamestate.getP] using this
    have e5 := collidePair_of_no_hit
      ((collidePair ((collidePair st.player_a1 st.player_a2).2)
        ((collidePair (collidePair st.player_a1 st.player_a2).1 st.player_b1).2)).1)
      st.player_b2 ha2
    simp only [e5]
    have hb1 : intersect_spheres
        ((collidePair ((collidePair st.player_a1 st.player_a2).2)
          ((collidePair (collidePair st.player_a1 st.player_a2).1 st.player_b1).2)).2).position
        PLAYER_RADIUS st.player_b2.position PLAYER_RADIUS = false := by
      rw [collidePair_snd_position, collidePair_snd_position, intersect_spheres_symm]
      have := h PId.b1 (by decide)
      simpa [Gamestate.getP] using this
    have e6 := collidePair_of_no_hit
      ((collidePair ((collidePair st.player_a1 st.player_a2).2)
        ((collidePair (collidePair st.player_a1 st.player_a2).1 st.player_b1).2)).2)
      st.player_b2 hb1
    simp only [e6]

theorem collideObstacles_no_hit (p : Player) (obs : List Obstacle)
    (h : ∀ ob ∈ obs, intersect_spheres p.position PLAYER_RADIUS ob.position ob.radius = false) :
    ∀ sc : Scores, collideObstacles p obs sc = (p, sc) := by
  induction obs with
  | nil => intro sc; rfl
  | cons ob rest ih =>
    intro sc
    rw [collideObstacles, h ob (List.mem_cons_self _ _), if_neg (by simp)]
    exact ih (fun o ho => h o (List.mem_cons_of_mem _ ho)) sc

theorem collideBullets_no_hit (p : Player) (bs : List Bullet)
    (h : ∀ bl ∈ bs, intersect_sphere_lineseg p.position PLAYER_RADIUS
      bl.position bl.prev_position = false) :
    ∀ sc : Scores, collideBullets p bs sc = (p, sc) := by
  induction bs with
  | nil => intro sc; rfl
  | cons bl rest ih =>
    intro sc
    rw [collideBullets, h bl (List.mem_cons_self _ _), if_neg (by simp)]
    exact ih (fun o ho => h o (List.mem_cons_of_mem _ ho)) sc

theorem playerObstacleStage_id (st : Gamestate)
    (h : ∀ q : PId, ∀ ob ∈ st.obstacles,
      intersect_spheres ((st.getP q).position) PLAYER_RADIUS ob.position ob.radius = false) :
    playerObstacleStage st = st := by
  have h1 := h PId.a1
  have h2 := h PId.a2
  have h3 := h PId.b1
  have h4 := h PId.b2
  simp only [Gamestate.getP] at h1 h2 h3 h4
  simp only [playerObstacleStage, collideObstacles_no_hit _ _ h1,
    collideObstacles_no_hit _ _ h2, collideObstacles_no_hit _ _ h3,
    collideObstacles_no_hit _ _ h4]

theorem playerBulletStage_id (st : Gamestate)
    (h : ∀ q : PId, ∀ bl ∈ st.bullets,
      intersect_sphere_lineseg ((st.getP q).position) PLAYER_RADIUS
        bl.position bl.prev_position = false) :
    playerBulletStage st = st := by
  have h1 := h PId.a1
  have h2 := h PId.a2
  have h3 := h PId.b1
  have h4 := h PId.b2
  simp only [Gamestate.getP] at h1 h2 h3 h4
  simp only [playerBulletStage, collideBullets_no_hit _ _ h1,
    collideBullets_no_hit _ _ h2, collideBullets_no_hit _ _ h3,
    collideBullets_no_hit _ _ h4]

/-- C2 (amended): a player dead at the start of a tick with respawn_timer
still within MAX_PLAYER_RESPAWN_TIMER has, after the whole tick, exactly
its respawn_timer incremented by 1 and every other field (and all scores)
unchanged - PROVIDED that in the mid-tick state (after movement/bullet
integration) no player-obstacle or player-bullet collision is detected for
any player, no other player's sphere intersects the dead player's, and the
dead player's sphere is NOT fully contained in the arena cube.  The
provisos are forced: the collision stages still process dead players
(resetting their timer and charging scores), and the out-of-bounds stage,
whose test is inverted, resets the timer of every player whose sphere IS
fully contained. -/
theorem C2_dead_player_frozen_when_untouched (fcos fsin : ℚ → ℚ) (rng : Rng)
    (st : Gamestate) (ia ib : Option InputRawQ) (pid : PId)
    (hdead : (st.getP pid).is_dead = true)
    (htimer : (st.getP pid).respawn_timer ≤ MAX_PLAYER_RESPAWN_TIMER)
    (hpp : ∀ q : PId, q ≠ pid →
      intersect_spheres (((midTickState fcos fsin rng st ia ib).getP pid).position)
        PLAYER_RADIUS (((midTickState fcos fsin rng st ia ib).getP q).position)
        PLAYER_RADIUS = false)
    (hob : ∀ q : PId, ∀ ob ∈ (midTickState fcos fsin rng st ia ib).obstacles,
      intersect_spheres (((midTickState fcos fsin rng st ia ib).getP q).position)
        PLAYER_RADIUS ob.position ob.radius = false)
    (hbl : ∀ q : PId, ∀ bl ∈ (midTickState fcos fsin rng st ia ib).bullets,
      intersect_sphere_lineseg (((midTickState fcos fsin rng st ia ib).getP q).position)
        PLAYER_RADIUS bl.position bl.prev_position = false)
    (hoob : inside_game_area (((midTickState fcos fsin rng st ia ib).getP pid).position)
      PLAYER_RADIUS = false) :
    (compute_next_tick fcos fsin rng st ia ib).getP pid
      = { st.getP pid with respawn_timer := (st.getP pid).respawn_timer + 1 } ∧
    (compute_next_tick fcos fsin rng st ia ib).scores = st.scores := by
  have htick : compute_next_tick fcos fsin rng st ia ib
      = oobStage (playerBulletStage (playerObstacleStage (playerPlayerStage
          (midTickState fcos fsin rng st ia ib)))) := rfl
  have hpps : (playerPlayerStage (midTickState fcos fsin rng st ia ib)).getP pid
      = (midTickState fcos fsin rng st ia ib).getP pid :=
    playerPlayerStage_getP_no_hit _ pid hpp
  have hob2 : ∀ q : PId, ∀ ob ∈ (playerPlayerStage (midTickState fcos fsin rng st ia ib)).obstacles,
      intersect_spheres (((playerPlayerStage (midTickState fcos fsin rng st ia ib)).getP q).position)
        PLAYER_RADIUS ob.position ob.radius = false := by
    intro q ob hmem
    rw [playerPlayerStage_getP_position]
    exact hob q ob (by rw [playerPlayerStage_obstacles] at hmem; exact hmem)
  have e7 : playerObstacleStage (playerPlayerStage (midTickState fcos fsin rng st ia ib))
      = playerPlayerStage (midTickState fcos fsin rng st ia ib) :=
    playerObstacleStage_id _ hob2
  have hbl2 : ∀ q : PId, ∀ bl ∈ (playerPlayerStage (midTickState fcos fsin rng st ia ib)).bullets,
      intersect_sphere_lineseg (((playerPlayerStage (midTickState fcos fsin rng st ia ib)).getP q).position)
        PLAYER_RADIUS bl.position bl.prev_position = false := by
    intro q bl hmem
    rw [playerPlayerStage_getP_position]
    exact hbl q bl (by rw [playerPlayerStage_bullets] at hmem; exact hmem)
  have e8 : playerBulletStage (playerPlayerStage (midTickState fcos fsin rng st ia ib))
      = playerPlayerStage (midTickState fcos fsin rng st ia ib) :=
    playerBulletStage_id _ hbl2
  have hmid : (midTickState fcos fsin rng st ia ib).getP pid
      = { st.getP pid with respawn_timer := (st.getP pid).respawn_timer + 1 } :=
    midTickState_getP_dead fcos fsin rng st ia ib pid hdead htimer
  constructor
  · rw [htick, e7, e8, oobStage_getP, hpps, oobCheck_id _ hoob, hmid]
  · rw [htick, e7, e8, oobStage_scores, playerPlayerStage_scores, midTickState_scores]

theorem exBase_mid_getP (q : PId) :
    (midTickState zfun zfun rng0 exBase none none).getP q
      = { exBase.getP q with respawn_timer := (exBase.getP q).respawn_timer + 1 } := by
  apply midTickState_getP_dead
  · cases q <;> rfl
  · cases q <;> decide

theorem exBase_mid_obstacles :
    (midTickState zfun zfun rng0 exBase none none).obstacles = [] := by
  simp [midTickState, postBulletMoveState, postPlayerState, preMoveState,
    bulletMoveStage_obstacles, playerStage_obstacles, obstacleMoveStage,
    obstacleSpawnStage, exBase, MAX_OBSTACLE_SPAWN_TIMER]

theorem exBase_mid_bullets :
    (midTickState zfun zfun rng0 exBase none none).bullets = [] := by
  simp [midTickState, postBulletMoveState, postPlayerState, preMoveState, bulletMoveStage,
    playerStage, updatePlayer, obstacleMoveStage, obstacleSpawnStage, exBase, mkDeadPlayer,
    MAX_OBSTACLE_SPAWN_TIMER, MAX_PLAYER_RESPAWN_TIMER, resolveInput]

/-- Witness for C2 at a concrete quiet state: dead player A1 with timer 3,
touching the arena wall (not fully contained), nothing else near: the tick
leaves every field but the respawn timer unchanged and only increments
that timer, with the scores untouched. -/
theorem C2_dead_player_frozen_when_untouched_witness :
    (exBase.getP PId.a1).is_dead = true ∧
    (exBase.getP PId.a1).respawn_timer ≤ MAX_PLAYER_RESPAWN_TIMER ∧
    (compute_next_tick zfun zfun rng0 exBase none none).getP PId.a1
      = { exBase.getP PId.a1 with respawn_timer := (exBase.getP PId.a1).respawn_timer + 1 } ∧
    (compute_next_tick zfun zfun rng0 exBase none none).scores = exBase.scores := by
  have hpp : ∀ q : PId, q ≠ PId.a1 →
      intersect_spheres (((midTickState zfun zfun rng0 exBase none none).getP PId.a1).position)
        PLAYER_RADIUS (((midTickState zfun zfun rng0 exBase none none).getP q).position)
        PLAYER_RADIUS = false := by
    intro q hq
    rw [exBase_mid_getP, exBase_mid_getP]
    cases q with
    | a1 => exact absurd rfl hq
    | a2 =>
      simp only [exBase, Gamestate.getP, mkDeadPlayer]
      norm_num [intersect_spheres, PLAYER_RADIUS]
    | b1 =>
      simp only [exBase, Gamestate.getP, mkDeadPlayer]
      norm_num [intersect_spheres, PLAYER_RADIUS]
    | b2 =>
      simp only [exBase, Gamestate.getP, mkDeadPlayer]
      norm_num [intersect_spheres, PLAYER_RADIUS]
  have hob : ∀ q : PId, ∀ ob ∈ (midTickState zfun zfun rng0 exBase none none).obstacles,
      intersect_spheres (((midTickState zfun zfun rng0 exBase none none).getP q).position)
        PLAYER_RADIUS ob.position ob.radius = false := by
    intro q ob hmem
    rw [exBase_mid_obstacles] at hmem
    cases hmem
  have hbl : ∀ q : PId, ∀ bl ∈ (midTickState zfun zfun rng0 exBase none none).bullets,
      intersect_sphere_lineseg (((midTickState zfun zfun rng0 exBase none none).getP q).position)
        PLAYER_RADIUS bl.position bl.prev_position = false := by
    intro q bl hmem
    rw [exBase_mid_bullets] at hmem
    cases hmem
  have hoob : inside_game_area
      (((midTickState zfun zfun rng0 exBase none none).getP PId.a1).position)
      PLAYER_RADIUS = false := by
    rw [exBase_mid_getP]
    simp only [exBase, Gamestate.getP, mkDeadPlayer]
    norm_num [inside_game_area, GAME_AREA_SIZE, PLAYER_RADIUS]
  have h := C2_dead_player_frozen_when_untouched zfun zfun rng0 exBase none none PId.a1
    rfl (by decide) hpp hob hbl hoob
  exact ⟨rfl, by decide, h.1, h.2⟩

theorem exC2_mid_getP (q : PId) :
    (midTickState zfun zfun rng0 exC2 none none).getP q
      = { exC2.getP q with respawn_timer := (exC2.getP q).respawn_timer + 1 } := by
  apply midTickState_getP_dead
  · cases q <;> rfl
  · cases q <;> decide

theorem exC2_mid_obstacles :
    (midTickState zfun zfun rng0 exC2 none none).obstacles = [] := by
  simp [midTickState, postBulletMoveState, postPlayerState, preMoveState,
    bulletMoveStage_obstacles, playerStage_obstacles, obstacleMoveStage,
    obstacleSpawnStage, exC2, exBase, MAX_OBSTACLE_SPAWN_TIMER]

theorem exC2_mid_bullets :
    (midTickState zfun zfun rng0 exC2 none none).bullets = [] := by
  simp [midTickState, postBulletMoveState, postPlayerState, preMoveState, bulletMoveStage,
    playerStage, updatePlayer, obstacleMoveStage, obstacleSpawnStage, exC2, exBase,
    mkDeadPlayer, MAX_OBSTACLE_SPAWN_TIMER, MAX_PLAYER_RESPAWN_TIMER, resolveInput]

/-- C2 counterexample: in `exC2`, player A1 is dead at the arena center
with respawn_timer 5 and touches nothing, yet after the tick its
respawn_timer is 0, not 6: the per-player stage increments it to 6, but
the final out-of-bounds stage - whose containment test is inverted -
kills the fully-contained player again and resets the timer to 0.  So the
claim that such a tick changes the dead player's respawn_timer to old+1
(and nothing else) is false. -/
theorem C2_counterexample :
    (exC2.getP PId.a1).is_dead = true ∧
    (exC2.getP PId.a1).respawn_timer = 5 ∧
    (exC2.getP PId.a1).respawn_timer ≤ MAX_PLAYER_RESPAWN_TIMER ∧
    ((compute_next_tick zfun zfun rng0 exC2 none none).getP PId.a1).respawn_timer = 0 := by
  have htick : compute_next_tick zfun zfun rng0 exC2 none none
      = oobStage (playerBulletStage (playerObstacleStage (playerPlayerStage
          (midTickState zfun zfun rng0 exC2 none none)))) := rfl
  have hpp : ∀ q : PId, q ≠ PId.a1 →
      intersect_spheres (((midTickState zfun zfun rng0 exC2 none none).getP PId.a1).position)
        PLAYER_RADIUS (((midTickState zfun zfun rng0 exC2 none none).getP q).position)
        PLAYER_RADIUS = false := by
    intro q hq
    rw [exC2_mid_getP, exC2_mid_getP]
    cases q with
    | a1 => exact absurd rfl hq
    | a2 =>
      simp only [exC2, exBase, Gamestate.getP, mkDeadPlayer]
      norm_num [intersect_spheres, PLAYER_RADIUS]
    | b1 =>
      simp only [exC2, exBase, Gamestate.getP, mkDeadPlayer]
      norm_num [intersect_spheres, PLAYER_RADIUS]
    | b2 =>
      simp only [exC2, exBase, Gamestate.getP, mkDeadPlayer]
      norm_num [intersect_spheres, PLAYER_RADIUS]
  have hpps : (playerPlayerStage (midTickState zfun zfun rng0 exC2 none none)).getP PId.a1
      = (midTickState zfun zfun rng0 exC2 none none).getP PId.a1 :=
    playerPlayerStage_getP_no_hit _ PId.a1 hpp
  have e7 : playerObstacleStage (playerPlayerStage (midTickState zfun zfun rng0 exC2 none none))
      = playerPlayerStage (midTickState zfun zfun rng0 exC2 none none) := by
    apply playerObstacleStage_id
    intro q ob hmem
    rw [playerPlayerStage_obstacles, exC2_mid_obstacles] at hmem
    cases hmem
  have e8 : playerBulletStage (playerPlayerStage (midTickState zfun zfun rng0 exC2 none none))
      = playerPlayerStage (midTickState zfun zfun rng0 exC2 none none) := by
    apply playerBulletStage_id
    intro q bl hmem
    rw [playerPlayerStage_bullets, exC2_mid_bullets] at hmem
    cases hmem
  have hinside : inside_game_area
      (((midTickState zfun zfun rng0 exC2 none none).getP PId.a1).position)
      PLAYER_RADIUS = true := by
    rw [exC2_mid_getP]
    simp only [exC2, exBase, Gamestate.getP, mkDeadPlayer]
    simp [inside_game_area, GAME_AREA_SIZE, PLAYER_RADIUS]
  refine ⟨rfl, rfl, by decide, ?_⟩
  rw [htick, e7, e8, oobStage_getP, hpps]
  unfold oobCheck
  rw [hinside]
  simp [killPlayer]

theorem alivePlayerStep_bullets (fcos fsin : ℚ → ℚ) (p : Player) (c : ControlsQ)
    (bullets : List Bullet) (counter k : ℕ) :
    ∃ new, (alivePlayerStep fcos fsin p c bullets counter k).bullets = bullets ++ new ∧
      (∀ nb ∈ new, counter ≤ nb.guid) ∧
      counter ≤ (alivePlayerStep fcos fsin p c bullets counter k).counter := by
  unfold alivePlayerStep
  dsimp only
  repeat' split
  all_goals
    first
      | exact ⟨[spawnBullet _ _ _ counter], rfl, by simp [spawnBullet], Nat.le_succ _⟩
      | exact ⟨[], by simp, by simp, Nat.le_refl _⟩

theorem updatePlayer_bullets (fcos fsin : ℚ → ℚ) (rng : Rng) (k : ℕ) (p : Player)
    (c : ControlsQ) (bullets : List Bullet) (counter : ℕ) :
    ∃ new, (updatePlayer fcos fsin rng k p c bullets counter).bullets = bullets ++ new ∧
      (∀ nb ∈ new, counter ≤ nb.guid) ∧
      counter ≤ (updatePlayer fcos fsin rng k p c bullets counter).counter := by
  unfold updatePlayer
  split
  · split
    · exact ⟨[], by simp, by simp, Nat.le_refl _⟩
    · exact alivePlayerStep_bullets fcos fsin _ c bullets counter (k + 3)
  · exact alivePlayerStep_bullets fcos fsin p c bullets counter k

theorem playerStage_bullets (fcos fsin : ℚ → ℚ) (rng : Rng) (k : ℕ) (st : Gamestate)
    (ca1 ca2 cb1 cb2 : ControlsQ) :
    ∃ new, ((playerStage fcos fsin rng k st ca1 ca2 cb1 cb2).1).bullets = st.bullets ++ new ∧
      ∀ nb ∈ new, st.bullet_counter ≤ nb.guid := by
  simp only [playerStage]
  obtain ⟨n1, e1, g1, m1⟩ :=
    updatePlayer_bullets fcos fsin rng k st.player_a1 ca1 st.bullets st.bullet_counter
  set r1 := updatePlayer fcos fsin rng k st.player_a1 ca1 st.bullets st.bullet_counter with hr1
  obtain ⟨n2, e2, g2, m2⟩ :=
    updatePlayer_bullets fcos fsin rng r1.k st.player_a2 ca2 r1.bullets r1.counter
  set r2 := updatePlayer fcos fsin rng r1.k st.player_a2 ca2 r1.bullets r1.counter with hr2
  obtain ⟨n3, e3, g3, m3⟩ :=
    updatePlayer_bullets fcos fsin rng r2.k st.player_b1 cb1 r2.bullets r2.counter
  set r3 := updatePlayer fcos fsin rng r2.k st.player_b1 cb1 r2.bullets r2.counter with hr3
  obtain ⟨n4, e4, g4, m4⟩ :=
    updatePlayer_bullets fcos fsin rng r3.k st.player_b2 cb2 r3.bullets r3.counter
  set r4 := updatePlayer fcos fsin rng r3.k st.player_b2 cb2 r3.bullets r3.counter with hr4
  have hc1 : st.bullet_counter ≤ r1.counter := m1
  have hc2 : st.bullet_counter ≤ r2.counter := le_trans hc1 m2
  have hc3 : st.bullet_counter ≤ r3.counter := le_trans hc2 m3
  refine ⟨n1 ++ n2 ++ n3 ++ n4, ?_, ?_⟩
  · show r4.bullets = _
    rw [e4, e3, e2, e1]
    simp [List.append_assoc]
  · intro nb hmem
    simp only [List.mem_append] at hmem
    rcases hmem with ((h | h) | h) | h
    · exact g1 nb h
    · exact le_trans hc1 (g2 nb h)
    · exact le_trans hc2 (g3 nb h)
    · exact le_trans hc3 (g4 nb h)

theorem midTickState_bullets (fcos fsin : ℚ → ℚ) (rng : Rng) (st : Gamestate)
    (ia ib : Option InputRawQ) :
    ∃ new, (∀ nb ∈ new, st.bullet_counter ≤ nb.guid) ∧
      (midTickState fcos fsin rng st ia ib).bullets
        = ((st.bullets ++ new).map moveBullet).filter
            (fun bl => inside_obstacle_area bl.position) := by
  unfold midTickState postBulletMoveState postPlayerState preMoveState
  dsimp only
  obtain ⟨new, he, hg⟩ := playerStage_bullets fcos fsin rng
    (obstacleSpawnStage rng 0 { st with ticks_progressed := st.ticks_progressed + 1 }).2
    (obstacleMoveStage
      (obstacleSpawnStage rng 0 { st with ticks_progressed := st.ticks_progressed + 1 }).1)
    (resolveInput ia).1 (resolveInput ia).2 (resolveInput ib).1 (resolveInput ib).2
  refine ⟨new, ?_, ?_⟩
  · intro nb hnb
    have h := hg nb hnb
    rwa [obstacleMoveStage_bullet_counter, obstacleSpawnStage_bullet_counter] at h
  · simp only [bulletMoveStage]
    rw [he, obstacleMoveStage_bullets, obstacleSpawnStage_bullets]

/-- C3 (amended): a bullet present at the start of a tick survives the
tick (some bullet with its guid is still in the map) exactly when its
integrated position stays inside the obstacle area.  Colliding with a
player does NOT remove a bullet: the player-bullet stage only kills
players and moves scores; no code deletes the bullet.  Hypotheses: the
stored guids are below the bullet counter and pairwise distinct (the
HashMap key invariant maintained by the server). -/
theorem C3_bullet_removed_iff_leaves_area (fcos fsin : ℚ → ℚ) (rng : Rng)
    (st : Gamestate) (ia ib : Option InputRawQ) (b : Bullet)
    (hmem : b ∈ st.bullets)
    (hguid : ∀ b2 ∈ st.bullets, b2.guid < st.bullet_counter)
    (hinj : ∀ b1 ∈ st.bullets, ∀ b2 ∈ st.bullets, b1.guid = b2.guid → b1 = b2) :
    (∃ b2 ∈ (compute_next_tick fcos fsin rng st ia ib).bullets, b2.guid = b.guid) ↔
      inside_obstacle_area (moveBullet b).position = true := by
  have hfinal : (compute_next_tick fcos fsin rng st ia ib).bullets
      = (midTickState fcos fsin rng st ia ib).bullets := by
    show (oobStage (playerBulletStage (playerObstacleStage (playerPlayerStage
      (midTickState fcos fsin rng st ia ib))))).bullets = _
    rw [oobStage_bullets, playerBulletStage_bullets, playerObstacleStage_bullets,
      playerPlayerStage_bullets]
  obtain ⟨new, hg, hmid⟩ := midTickState_bullets fcos fsin rng st ia ib
  rw [hfinal, hmid]
  constructor
  · rintro ⟨b2, hb2mem, hb2guid⟩
    rw [List.mem_filter] at hb2mem
    obtain ⟨hb2map, hb2in⟩ := hb2mem
    rw [List.mem_map] at hb2map
    obtain ⟨b3, hb3mem, hb3eq⟩ := hb2map
    rw [List.mem_append] at hb3mem
    subst hb3eq
    rcases hb3mem with h3 | h3
    · have hbb : b3 = b :=
        hinj b3 h3 b hmem (by rw [← moveBullet_guid b3]; exact hb2guid)
      rw [hbb] at hb2in
      exact hb2in
    · exfalso
      have h1 : st.bullet_counter ≤ b3.guid := hg b3 h3
      have h2 : b3.guid = b.guid := by rw [← moveBullet_guid b3]; exact hb2guid
      have h4 : b.guid < st.bullet_counter := hguid b hmem
      omega
  · intro hin
    refine ⟨moveBullet b, ?_, moveBullet_guid b⟩
    rw [List.mem_filter]
    exact ⟨List.mem_map_of_mem _ (List.mem_append_left _ hmem), hin⟩

/-- Witness for C3's amended statement at the concrete state `exC3`: the
stored bullet's integrated position (5,0,0) stays inside the obstacle
area, so a bullet with its guid (0) is still present after the tick. -/
theorem C3_bullet_removed_iff_leaves_area_witness :
    inside_obstacle_area
      (moveBullet ⟨Team.B, 0, ⟨19/4, 0, 0⟩, ⟨6, 0, 0⟩, (1/4, 0)⟩).position = true ∧
    ∃ b2 ∈ (compute_next_tick zfun zfun rng0 exC3 none none).bullets, b2.guid = 0 := by
  have hb : (⟨Team.B, 0, ⟨19/4, 0, 0⟩, ⟨6, 0, 0⟩, (1/4, 0)⟩ : Bullet) ∈ exC3.bullets := by
    simp [exC3]
  have hguid : ∀ b2 ∈ exC3.bullets, b2.guid < exC3.bullet_counter := by
    intro b2 h
    simp only [exC3, exBase, List.mem_singleton] at h
    rw [h]
    decide
  have hinj : ∀ b1 ∈ exC3.bullets, ∀ b2 ∈ exC3.bullets, b1.guid = b2.guid → b1 = b2 := by
    intro b1 h1 b2 h2 _
    simp only [exC3, exBase, List.mem_singleton] at h1 h2
    rw [h1, h2]
  have hin : inside_obstacle_area
      (moveBullet ⟨Team.B, 0, ⟨19/4, 0, 0⟩, ⟨6, 0, 0⟩, (1/4, 0)⟩).position = true := by
    norm_num [moveBullet, inside_obstacle_area, OBSTACLE_AREA_SIZE, GAME_AREA_SIZE]
  have h := C3_bullet_removed_iff_leaves_area zfun zfun rng0 exC3 none none
    ⟨Team.B, 0, ⟨19/4, 0, 0⟩, ⟨6, 0, 0⟩, (1/4, 0)⟩ hb hguid hinj
  exact ⟨hin, h.mpr hin⟩

/-- C3 counterexample: in `exC3`, the bullet moves to (5,0,0), exactly
touching dead player A1 at (4,0,0) (the solver's `a == 0` branch reports
the collision), yet the bullet is still present in the Gamestate after
the tick - the claim that a bullet that hits a player no longer exists
after that tick is false. -/
theorem C3_counterexample :
    ((midTickState zfun zfun rng0 exC3 none none).getP PId.a1).position = ⟨4, 0, 0⟩ ∧
    moveBullet ⟨Team.B, 0, ⟨19/4, 0, 0⟩, ⟨6, 0, 0⟩, (1/4, 0)⟩
      ∈ (midTickState zfun zfun rng0 exC3 none none).bullets ∧
    intersect_sphere_lineseg ⟨4, 0, 0⟩ PLAYER_RADIUS
      (moveBullet ⟨Team.B, 0, ⟨19/4, 0, 0⟩, ⟨6, 0, 0⟩, (1/4, 0)⟩).position
      (moveBullet ⟨Team.B, 0, ⟨19/4, 0, 0⟩, ⟨6, 0, 0⟩, (1/4, 0)⟩).prev_position = true ∧
    moveBullet ⟨Team.B, 0, ⟨19/4, 0, 0⟩, ⟨6, 0, 0⟩, (1/4, 0)⟩
      ∈ (compute_next_tick zfun zfun rng0 exC3 none none).bullets := by
  have hb : (⟨Team.B, 0, ⟨19/4, 0, 0⟩, ⟨6, 0, 0⟩, (1/4, 0)⟩ : Bullet) ∈ exC3.bullets := by
    simp [exC3]
  have hin : inside_obstacle_area
      (moveBullet ⟨Team.B, 0, ⟨19/4, 0, 0⟩, ⟨6, 0, 0⟩, (1/4, 0)⟩).position = true := by
    norm_num [moveBullet, inside_obstacle_area, OBSTACLE_AREA_SIZE, GAME_AREA_SIZE]
  obtain ⟨new, hg, hmid⟩ := midTickState_bullets zfun zfun rng0 exC3 none none
  have hmemmid : moveBullet ⟨Team.B, 0, ⟨19/4, 0, 0⟩, ⟨6, 0, 0⟩, (1/4, 0)⟩
      ∈ (midTickState zfun zfun rng0 exC3 none none).bullets := by
    rw [hmid, List.mem_filter]
    exact ⟨List.mem_map_of_mem _ (List.mem_append_left _ hb), hin⟩
  have hfinal : (compute_next_tick zfun zfun rng0 exC3 none none).bullets
      = (midTickState zfun zfun rng0 exC3 none none).bullets := by
    show (oobStage (playerBulletStage (playerObstacleStage (playerPlayerStage
      (midTickState zfun zfun rng0 exC3 none none))))).bullets = _
    rw [oobStage_bullets, playerBulletStage_bullets, playerObstacleStage_bullets,
      playerPlayerStage_bullets]
  refine ⟨?_, hmemmid, ?_, ?_⟩
  · rw [midTickState_getP_dead zfun zfun rng0 exC3 none none PId.a1 rfl (by decide)]
    rfl
  · norm_num [intersect_sphere_lineseg, segA, moveBullet, PLAYER_RADIUS]
  · rw [hfinal]
    exact hmemmid
